import Mathlib

/-!
Verification of the `otelgo` instrumentation facade (package `eto`).

The Go sources under `src/eto` are shallowly embedded below:
pure helpers become Lean functions, the process-wide mutable globals
(`globalCfg`, `globalTP`, `globalMeter`, `globalOtelLogger`, `globalLogger`,
`globalPropagator`, the instrument caches and their recorded measurements)
become an explicit `GlobalState` value threaded through each operation, and
external effects (exporter construction, id generation, caller resolution)
become explicit inputs.  Machine integers are `Nat`/`Int`; a 128-bit trace id
and a 64-bit span id are `Nat` values with explicit bounds where they matter.
-/

namespace Otelgo

/-! ## Hexadecimal encoding (the wire form of trace and span ids)

Go renders `TraceID`/`SpanID` via `encoding/hex` as fixed-width lowercase hex
and parses them accepting both cases.  We embed that as fixed-width digit
lists over `Char`. -/

/-- One lowercase hex digit, as produced by Go's `encoding/hex` tables. -/
def hexDigitChar (n : Nat) : Char :=
  if n < 10 then Char.ofNat (48 + n) else Char.ofNat (87 + n)

/-- Value of a hex character; `encoding/hex` accepts both letter cases. -/
def hexCharVal (c : Char) : Option Nat :=
  if '0' ≤ c ∧ c ≤ '9' then some (c.toNat - 48)
  else if 'a' ≤ c ∧ c ≤ 'f' then some (c.toNat - 87)
  else if 'A' ≤ c ∧ c ≤ 'F' then some (c.toNat - 55)
  else none

/-- Fixed-width big-endian hex rendering of a natural number (low `k` digits). -/
def toHexFixed : Nat → Nat → List Char
  | 0, _ => []
  | k + 1, n => toHexFixed k (n / 16) ++ [hexDigitChar (n % 16)]

/-- Accumulator-style hex parse over a character list. -/
def parseHexAux : Nat → List Char → Option Nat
  | acc, [] => some acc
  | acc, c :: cs =>
    match hexCharVal c with
    | some v => parseHexAux (acc * 16 + v) cs
    | none => none

/-- Parse a hex field of exactly `k` characters, as Go's `extractPart` +
`hex.Decode` do for traceparent fields. -/
def parseHexFixed (k : Nat) (cs : List Char) : Option Nat :=
  if cs.length = k then parseHexAux 0 cs else none

theorem hexCharVal_hexDigitChar : ∀ v, v < 16 → hexCharVal (hexDigitChar v) = some v := by
  decide

theorem hexDigitChar_ne_dash : ∀ v, v < 16 → hexDigitChar v ≠ '-' := by
  decide

theorem toHexFixed_length (k : Nat) : ∀ n, (toHexFixed k n).length = k := by
  induction k with
  | zero => intro n; rfl
  | succ k ih =>
    intro n
    simp [toHexFixed, ih]

theorem dash_not_mem_toHexFixed (k : Nat) : ∀ n, '-' ∉ toHexFixed k n := by
  induction k with
  | zero => intro n; simp [toHexFixed]
  | succ k ih =>
    intro n
    simp only [toHexFixed, List.mem_append, List.mem_singleton]
    push_neg
    refine ⟨ih _, fun h => ?_⟩
    exact hexDigitChar_ne_dash (n % 16) (Nat.mod_lt _ (by norm_num)) h.symm

theorem parseHexAux_append (xs : List Char) :
    ∀ acc ys, parseHexAux acc (xs ++ ys) =
      (parseHexAux acc xs).bind (fun a => parseHexAux a ys) := by
  induction xs with
  | nil => intro acc ys; rfl
  | cons c cs ih =>
    intro acc ys
    simp only [List.cons_append, parseHexAux]
    cases hexCharVal c with
    | none => rfl
    | some v => exact ih _ _

theorem mod_mul_split (n k : Nat) :
    n % (16 * 16 ^ k) = 16 * (n / 16 % 16 ^ k) + n % 16 := by
  have hk : 0 < 16 ^ k := Nat.pos_pow_of_pos k (by norm_num)
  have h1 : n = 16 * 16 ^ k * (n / 16 / 16 ^ k) + (16 * (n / 16 % 16 ^ k) + n % 16) := by
    conv_lhs => rw [← Nat.div_add_mod n 16, ← Nat.div_add_mod (n / 16) (16 ^ k)]
    ring
  have hb : 16 * (n / 16 % 16 ^ k) + n % 16 < 16 * 16 ^ k := by
    have m1 : n / 16 % 16 ^ k < 16 ^ k := Nat.mod_lt _ hk
    have m2 : n % 16 < 16 := Nat.mod_lt _ (by norm_num)
    omega
  conv_lhs => rw [h1]
  rw [Nat.mul_add_mod, Nat.mod_eq_of_lt hb]

theorem parseHexAux_toHexFixed (k : Nat) :
    ∀ acc n, parseHexAux acc (toHexFixed k n) = some (acc * 16 ^ k + n % 16 ^ k) := by
  induction k with
  | zero => intro acc n; simp [toHexFixed, parseHexAux, Nat.mod_one]
  | succ k ih =>
    intro acc n
    rw [toHexFixed, parseHexAux_append, ih]
    have hv : hexCharVal (hexDigitChar (n % 16)) = some (n % 16) :=
      hexCharVal_hexDigitChar _ (Nat.mod_lt _ (by norm_num))
    show parseHexAux (acc * 16 ^ k + n / 16 % 16 ^ k) [hexDigitChar (n % 16)] = _
    simp only [parseHexAux, hv]
    congr 1
    rw [pow_succ', mod_mul_split]
    ring

theorem parseHexFixed_toHexFixed (k n : Nat) (h : n < 16 ^ k) :
    parseHexFixed k (toHexFixed k n) = some n := by
  unfold parseHexFixed
  rw [if_pos (toHexFixed_length k n), parseHexAux_toHexFixed]
  simp [Nat.mod_eq_of_lt h]

/-! ## Splitting a traceparent header on dashes -/

/-- Split a character list on the `-` separator (models Go's repeated
`extractPart` consumption of the traceparent header). -/
def splitOnDash : List Char → List (List Char)
  | [] => [[]]
  | c :: cs =>
    if c = '-' then [] :: splitOnDash cs
    else
      match splitOnDash cs with
      | [] => [[c]]
      | p :: ps => (c :: p) :: ps

theorem splitOnDash_ne_nil : ∀ cs, splitOnDash cs ≠ [] := by
  intro cs
  induction cs with
  | nil => simp [splitOnDash]
  | cons c cs ih =>
    simp only [splitOnDash]
    split
    · simp
    · cases h : splitOnDash cs with
      | nil => simp
      | cons p ps => simp

theorem splitOnDash_append_dash (xs : List Char) (hx : '-' ∉ xs) :
    ∀ ys, splitOnDash (xs ++ '-' :: ys) = xs :: splitOnDash ys := by
  induction xs with
  | nil => intro ys; simp [splitOnDash]
  | cons c cs ih =>
    intro ys
    have hc : c ≠ '-' := fun h => hx (h ▸ List.mem_cons_self c cs)
    have hcs : '-' ∉ cs := fun h => hx (List.mem_cons_of_mem c h)
    simp only [List.cons_append, splitOnDash, if_neg hc, List.append_eq]
    rw [ih hcs]

theorem splitOnDash_no_dash (xs : List Char) (hx : '-' ∉ xs) :
    splitOnDash xs = [xs] := by
  induction xs with
  | nil => rfl
  | cons c cs ih =>
    have hc : c ≠ '-' := fun h => hx (h ▸ List.mem_cons_self c cs)
    have hcs : '-' ∉ cs := fun h => hx (List.mem_cons_of_mem c h)
    simp only [splitOnDash, if_neg hc, ih hcs]

/-! ## Trace identity and contexts -/

/-- Go `trace.SpanContext`: a 128-bit trace id, a 64-bit span id, the trace-flags
byte and the remote marker.  Ids are `Nat` values; the byte-array bounds of the
Go types appear as explicit hypotheses where they matter. -/
structure SpanContext where
  traceID : Nat
  spanID : Nat
  traceFlags : Nat
  remote : Bool
  deriving DecidableEq, Repr

/-- Go `SpanContext.IsValid`: both ids non-zero. -/
def SpanContext.isValid (sc : SpanContext) : Bool :=
  decide (sc.traceID ≠ 0) && decide (sc.spanID ≠ 0)

/-- The zero span context carried by a noop span. -/
def SpanContext.zero : SpanContext := ⟨0, 0, 0, false⟩

/-- Go `context.Context` as the facade observes it: the active span's context (if
a span was stored) plus baggage. -/
structure Context where
  activeSpan : Option SpanContext := none
  baggage : List (String × String) := []
  deriving DecidableEq, Repr

/-- Go `context.Background()`. -/
def Context.background : Context := {}

/-- Go `trace.SpanFromContext(ctx).SpanContext()`: the stored span's context, or
the zero context of the noop span when none was stored. -/
def Context.spanContext (c : Context) : SpanContext :=
  c.activeSpan.getD SpanContext.zero

/-- A transport carrier (HTTP header map, gRPC metadata, AMQP table) seen
through its `Get`/`Set` surface; later `Set` of the same key wins. -/
def Carrier := String → Option String

/-- Carrier `Set`: replace the value stored under `k`. -/
def Carrier.set (c : Carrier) (k v : String) : Carrier :=
  fun q => if q = k then some v else c q

/-- Carrier `Get`. -/
def Carrier.get (c : Carrier) (k : String) : Option String := c k

/-- The empty carrier. -/
def Carrier.empty : Carrier := fun _ => none

/-! ## Attribute values (`attribute.KeyValue` and the `any` dispatch) -/

/-- Go `any` values that reach `anyToAttr` / `LogBuilder.Field`; `float64`
is carried by its IEEE-754 bit pattern, other types by their `%v` rendering. -/
inductive GoVal
  | str (s : String)
  | int (i : Int)
  | int64 (i : Int)
  | float64 (bits : Nat)
  | bool (b : Bool)
  | other (repr : String)
  deriving DecidableEq, Repr

/-- Go `attribute.Value` of the OTLP attribute kinds the facade produces. -/
inductive AttrValue
  | str (s : String)
  | int64 (i : Int)
  | float64 (bits : Nat)
  | bool (b : Bool)
  deriving DecidableEq, Repr

/-- Go `attribute.KeyValue`. -/
abbrev KV := String × AttrValue

/-- Go `anyToAttr` from `metric_builder`: typed dispatch with `%v` string
fallback. -/
def anyToAttr (key : String) (val : GoVal) : KV :=
  match val with
  | .str v => (key, .str v)
  | .int v => (key, .int64 v)
  | .int64 v => (key, .int64 v)
  | .float64 v => (key, .float64 v)
  | .bool v => (key, .bool v)
  | .other r => (key, .str r)

/-! ## Process-wide global state (the `var` block of `otel_init.go`)

Instruments and their caches.  An instrument records the name, unit and
description it was created with, so "same cached instrument object" is
observable. -/

/-- A created metric instrument (counter or histogram). -/
structure Instrument where
  name : String
  unit : String
  desc : String
  deriving DecidableEq, Repr

/-- A measurement delivered to an instrument. -/
structure Measurement where
  inst : Instrument
  attrs : List KV
  intVal : Int
  floatBits : Nat
  deriving DecidableEq, Repr

/-- Go `Config` from `config.go`. -/
structure Config where
  ServiceName : String := ""
  Environment : String := ""
  OtelEndpoint : String := ""
  EnableMetrics : Bool := false
  deriving DecidableEq, Repr

/-- The process-wide globals of `otel_init.go`, plus the instrument caches of
the metric builders and, as observables, the measurements delivered so far.
`counterCreateOK`/`histogramCreateOK` model whether the external meter's
instrument construction succeeds for a given name. -/
structure GlobalState where
  cfg : Config := {}
  tracerProvider : Bool := false
  meterProvider : Bool := false
  meter : Bool := false
  logProvider : Bool := false
  otelLogger : Bool := false
  zapLogger : Bool := false
  propagator : Bool := false
  counterCache : List (String × Instrument) := []
  histogramCache : List (String × Instrument) := []
  counterCreateOK : String → Bool := fun _ => true
  histogramCreateOK : String → Bool := fun _ => true
  counterRecords : List Measurement := []
  histogramRecords : List Measurement := []

/-- The zero value of the globals: the state before `Init` has ever run. -/
def GlobalState.empty : GlobalState := {}

/-- Cache lookup by instrument name. -/
def lookupInst (cache : List (String × Instrument)) (name : String) : Option Instrument :=
  (cache.find? fun p => decide (p.1 = name)).map (·.2)

/-! ## Spans (`sdktrace` recording spans and noop spans) -/

/-- Go `trace.SpanKind`. -/
inductive SpanKind
  | internal
  | server
  | client
  | producer
  | consumer
  deriving DecidableEq, Repr

/-- Span status: unset / ok / error with message. -/
inductive SpanStatus
  | unset
  | ok
  | error (msg : String)
  deriving DecidableEq, Repr

/-- A span handle: its context, whether it records, and its recorded data.
A noop span has `recording = false` and every mutation on it is a no-op. -/
structure Span where
  sc : SpanContext
  recording : Bool
  name : String
  kind : SpanKind
  attrs : List KV
  status : SpanStatus
  exceptions : List String
  endCount : Nat
  deriving DecidableEq, Repr

/-- Go `span.End()`: first call on a recording span ends it; later calls and
calls on non-recording spans are no-ops. -/
def Span.end_ (s : Span) : Span :=
  if s.recording then { s with endCount := s.endCount + 1, recording := false } else s

/-- Go `span.SetAttributes(...)`. -/
def Span.setAttributes (s : Span) (kvs : List KV) : Span :=
  if s.recording then { s with attrs := s.attrs ++ kvs } else s

/-- Go `span.RecordError(err)`: records the failure as an exception event. -/
def Span.recordError (s : Span) (e : String) : Span :=
  if s.recording then { s with exceptions := s.exceptions ++ [e] } else s

/-- Go `span.SetStatus(code, msg)`. -/
def Span.setStatus (s : Span) (st : SpanStatus) : Span :=
  if s.recording then { s with status := st } else s

/-! ## TraceBuilder (`trace_builder.go`) -/

/-- Fresh span and trace ids drawn by the SDK's id generator at `Start`;
the generator is external randomness, so it is an explicit input. -/
structure IdGen where
  newTraceID : Nat
  newSpanID : Nat
  deriving DecidableEq, Repr

/-- Go `TraceBuilder`. -/
structure TraceBuilder where
  name : String := ""
  ctx : Context := Context.background
  attrs : List KV := []
  kind : SpanKind := .internal
  recordErr : Bool := true
  setStatus : Bool := true
  tracerName : String := "eto"
  deriving DecidableEq, Repr

/-- Go `Trace()`: the default-configured builder. -/
def Trace : TraceBuilder := {}

/-- Go `(*TraceBuilder).Name`. -/
def TraceBuilder.withName (b : TraceBuilder) (name : String) : TraceBuilder :=
  { b with name := name }

/-- Go `(*TraceBuilder).FromContext` (a nil context is kept out by the model:
Go ignores nil and keeps the previous context). -/
def TraceBuilder.fromContext (b : TraceBuilder) (ctx : Context) : TraceBuilder :=
  { b with ctx := ctx }

/-- Go `(*TraceBuilder).Kind`. -/
def TraceBuilder.withKind (b : TraceBuilder) (kind : SpanKind) : TraceBuilder :=
  { b with kind := kind }

/-- Go `(*TraceBuilder).Attr`: typed dispatch identical to `anyToAttr`. -/
def TraceBuilder.attr (b : TraceBuilder) (key : String) (val : GoVal) : TraceBuilder :=
  { b with attrs := b.attrs ++ [anyToAttr key val] }

/-- Go `(*TraceBuilder).RecordError`. -/
def TraceBuilder.withRecordError (b : TraceBuilder) (enable : Bool) : TraceBuilder :=
  { b with recordErr := enable }

/-- Go `(*TraceBuilder).SetStatusOnError`. -/
def TraceBuilder.withSetStatusOnError (b : TraceBuilder) (enable : Bool) : TraceBuilder :=
  { b with setStatus := enable }

/-- Go `(*TraceBuilder).Start()`.  With the SDK tracer provider installed the
child inherits the parent's trace id (or takes a fresh one at the root), the
ParentBased(AlwaysSample) default sampler decides recording, and the
pre-`Start` attributes are set on the new span.  Without a provider,
`otel.Tracer` yields the noop tracer, which returns a non-nil inert span
carrying the span context already in the source context. -/
def TraceBuilder.start (b : TraceBuilder) (gs : GlobalState) (gen : IdGen) :
    Context × Span :=
  let name := if b.name = "" then "unnamed-span" else b.name
  let parent := b.ctx.spanContext
  if gs.tracerProvider then
    let sampled := if parent.isValid then parent.traceFlags &&& 1 = 1 else true
    let sc : SpanContext :=
      { traceID := if parent.isValid then parent.traceID else gen.newTraceID
        spanID := gen.newSpanID
        traceFlags := if sampled then 1 else 0
        remote := false }
    let span : Span :=
      { sc := sc, recording := sampled, name := name, kind := b.kind
        attrs := b.attrs, status := .unset, exceptions := [], endCount := 0 }
    ({ b.ctx with activeSpan := some sc }, span)
  else
    let span : Span :=
      { sc := parent, recording := false, name := name, kind := b.kind
        attrs := [], status := .unset, exceptions := [], endCount := 0 }
    ({ b.ctx with activeSpan := some parent }, span)

/-- Go `(*TraceBuilder).Run(fn)`.  `fn` is `Option`-al to model a nil function
value; its result is the Go error (`none` = nil error).  The returned pair is
the span as left behind (when one was started) and the returned error. -/
def TraceBuilder.run (b : TraceBuilder) (gs : GlobalState) (gen : IdGen)
    (fn : Option (Context → Option String)) : Option Span × Option String :=
  match fn with
  | none => (none, some "eto.Trace().Run: fn is nil")
  | some f =>
    let started := b.start gs gen
    let err := f started.1
    let span :=
      match err with
      | some e =>
        let s1 := if b.recordErr then started.2.recordError e else started.2
        if b.setStatus then s1.setStatus (.error e) else s1
      | none => started.2
    (some span.end_, err)

/-! ## MetricRegistry (the counter/histogram builders) -/

/-- Go `CounterBuilder`. -/
structure CounterBuilder where
  name : String
  attrs : List KV := []
  unit : String := "1"
  desc : String := ""
  deriving DecidableEq, Repr

/-- Go `MetricCounter(name)`. -/
def MetricCounter (name : String) : CounterBuilder := { name := name }

/-- Go `(*CounterBuilder).Attr`. -/
def CounterBuilder.attr (b : CounterBuilder) (key : String) (val : GoVal) : CounterBuilder :=
  { b with attrs := b.attrs ++ [anyToAttr key val] }

/-- Go `(*CounterBuilder).Unit`. -/
def CounterBuilder.withUnit (b : CounterBuilder) (unit : String) : CounterBuilder :=
  if unit ≠ "" then { b with unit := unit } else b

/-- Go `(*CounterBuilder).Description`. -/
def CounterBuilder.withDescription (b : CounterBuilder) (desc : String) : CounterBuilder :=
  { b with desc := desc }

/-- Go `getOrCreateCounter`: cached lookup under the counter mutex; on a miss,
create through the global meter (which may fail) and cache the result. -/
def getOrCreateCounter (gs : GlobalState) (name unit desc : String) :
    GlobalState × Option Instrument :=
  match lookupInst gs.counterCache name with
  | some c => (gs, some c)
  | none =>
    if gs.counterCreateOK name then
      let c : Instrument := ⟨name, unit, desc⟩
      ({ gs with counterCache := gs.counterCache ++ [(name, c)] }, some c)
    else (gs, none)

/-- Go `(*CounterBuilder).Add(ctx, value)`. -/
def CounterBuilder.add (b : CounterBuilder) (gs : GlobalState) (_ctx : Context)
    (value : Int) : GlobalState :=
  if !gs.cfg.EnableMetrics || !gs.meter then gs
  else
    match getOrCreateCounter gs b.name b.unit b.desc with
    | (gs1, none) => gs1
    | (gs1, some c) =>
      { gs1 with counterRecords := gs1.counterRecords ++ [⟨c, b.attrs, value, 0⟩] }

/-- Go `HistogramBuilder`. -/
structure HistogramBuilder where
  name : String
  attrs : List KV := []
  unit : String := "ms"
  desc : String := ""
  deriving DecidableEq, Repr

/-- Go `MetricHistogram(name)`. -/
def MetricHistogram (name : String) : HistogramBuilder := { name := name }

/-- Go `(*HistogramBuilder).Attr`. -/
def HistogramBuilder.attr (b : HistogramBuilder) (key : String) (val : GoVal) : HistogramBuilder :=
  { b with attrs := b.attrs ++ [anyToAttr key val] }

/-- Go `getOrCreateHistogram`. -/
def getOrCreateHistogram (gs : GlobalState) (name unit desc : String) :
    GlobalState × Option Instrument :=
  match lookupInst gs.histogramCache name with
  | some h => (gs, some h)
  | none =>
    if gs.histogramCreateOK name then
      let h : Instrument := ⟨name, unit, desc⟩
      ({ gs with histogramCache := gs.histogramCache ++ [(name, h)] }, some h)
    else (gs, none)

/-- Go `(*HistogramBuilder).Record(ctx, value)`; the float value is carried by
its bit pattern. -/
def HistogramBuilder.record (b : HistogramBuilder) (gs : GlobalState) (_ctx : Context)
    (valueBits : Nat) : GlobalState :=
  if !gs.cfg.EnableMetrics || !gs.meter then gs
  else
    match getOrCreateHistogram gs b.name b.unit b.desc with
    | (gs1, none) => gs1
    | (gs1, some h) =>
      { gs1 with histogramRecords := gs1.histogramRecords ++ [⟨h, b.attrs, 0, valueBits⟩] }

/-- The metric operations that can touch the instrument caches during the
process lifetime. -/
inductive MetricOp
  | add (b : CounterBuilder) (ctx : Context) (value : Int)
  | record (b : HistogramBuilder) (ctx : Context) (valueBits : Nat)

/-- Run one metric operation against the globals. -/
def MetricOp.apply (op : MetricOp) (gs : GlobalState) : GlobalState :=
  match op with
  | .add b ctx v => b.add gs ctx v
  | .record b ctx v => b.record gs ctx v

/-- Run a sequence of metric operations. -/
def applyMetricOps (gs : GlobalState) : List MetricOp → GlobalState
  | [] => gs
  | op :: ops => applyMetricOps (op.apply gs) ops

/-! ## LogBuilder (`log_builder.go`) -/

/-- Go `LogLevel` is an `int` in Go; only the four constants below are ever
produced by the builder API. -/
abbrev LogLevel := Nat

/-- Go `levelDebug`. -/
def levelDebug : LogLevel := 0
/-- Go `levelInfo`. -/
def levelInfo : LogLevel := 1
/-- Go `levelWarn`. -/
def levelWarn : LogLevel := 2
/-- Go `levelError`. -/
def levelError : LogLevel := 3

/-- The `zapcore.FieldType` tags distinguished by `zapFieldsToOtelAttrs`;
`anyT` stands for every other tag `zap.Any` can produce. -/
inductive ZapType
  | stringT
  | boolT
  | int64T
  | int32T
  | int16T
  | int8T
  | uint64T
  | uint32T
  | uint16T
  | uint8T
  | timeT
  | float64T
  | anyT
  deriving DecidableEq, Repr

/-- Go `zapcore.Field`: a key, a type tag, and the integer and string slots. -/
structure ZapField where
  key : String
  type : ZapType
  integer : Int
  string : String
  deriving DecidableEq, Repr

/-- Go `zap.String`. -/
def zapString (key s : String) : ZapField := ⟨key, .stringT, 0, s⟩
/-- Go `zap.Int` / `zap.Int64` (both carry `Int64Type`). -/
def zapInt64 (key : String) (i : Int) : ZapField := ⟨key, .int64T, i, ""⟩
/-- Go `zap.Float64`: the bit pattern lands in the integer slot, the string slot
stays empty. -/
def zapFloat64 (key : String) (bits : Nat) : ZapField := ⟨key, .float64T, (bits : Int), ""⟩
/-- Go `zap.Bool`. -/
def zapBool (key : String) (b : Bool) : ZapField := ⟨key, .boolT, if b then 1 else 0, ""⟩
/-- Go `zap.Any` on a value outside the typed cases. -/
def zapAny (key : String) : ZapField := ⟨key, .anyT, 0, ""⟩

/-- Go `LogBuilder`. -/
structure LogBuilder where
  ctx : Context := Context.background
  level : LogLevel := levelInfo
  msg : String := ""
  fields : List ZapField := []
  deriving DecidableEq, Repr

/-- Go `Log()`. -/
def Log : LogBuilder := {}

/-- Go `(*LogBuilder).FromContext`. -/
def LogBuilder.fromContext (b : LogBuilder) (ctx : Context) : LogBuilder :=
  { b with ctx := ctx }

/-- Go `(*LogBuilder).Debug()`. -/
def LogBuilder.debug (b : LogBuilder) : LogBuilder := { b with level := levelDebug }
/-- Go `(*LogBuilder).Info()`. -/
def LogBuilder.info (b : LogBuilder) : LogBuilder := { b with level := levelInfo }
/-- Go `(*LogBuilder).Warn()`. -/
def LogBuilder.warn (b : LogBuilder) : LogBuilder := { b with level := levelWarn }
/-- Go `(*LogBuilder).error()`. -/
def LogBuilder.err (b : LogBuilder) : LogBuilder := { b with level := levelError }

/-- Go `(*LogBuilder).Msg`. -/
def LogBuilder.withMsg (b : LogBuilder) (msg : String) : LogBuilder :=
  { b with msg := msg }

/-- Go `(*LogBuilder).Field`: the typed `any` dispatch of `log_builder.go`. -/
def LogBuilder.field (b : LogBuilder) (key : String) (val : GoVal) : LogBuilder :=
  let f :=
    match val with
    | .str s => zapString key s
    | .int i => zapInt64 key i
    | .int64 i => zapInt64 key i
    | .float64 bits => zapFloat64 key bits
    | .bool x => zapBool key x
    | .other _ => zapAny key
  { b with fields := b.fields ++ [f] }

/-- Go `(*LogBuilder).Fields`. -/
def LogBuilder.moreFields (b : LogBuilder) (fs : List ZapField) : LogBuilder :=
  { b with fields := b.fields ++ fs }

/-- The remote four-level severity enumeration (`otellog.Severity` values the
facade produces). -/
inductive OtelSeverity
  | debug
  | info
  | warn
  | error
  deriving DecidableEq, Repr

/-- Go `(*LogBuilder).otelSeverity`: level to remote severity, defaulting to
info. -/
def LogBuilder.otelSeverity (b : LogBuilder) : OtelSeverity :=
  if b.level = levelDebug then .debug
  else if b.level = levelInfo then .info
  else if b.level = levelWarn then .warn
  else if b.level = levelError then .error
  else .info

/-- Go `(*LogBuilder).severityText`. -/
def LogBuilder.severityText (b : LogBuilder) : String :=
  if b.level = levelDebug then "DEBUG"
  else if b.level = levelInfo then "INFO"
  else if b.level = levelWarn then "WARN"
  else if b.level = levelError then "ERROR"
  else "INFO"

/-- Go `otellog.Value`-carrying attribute of a remote log record. -/
inductive OtelLogValue
  | str (s : String)
  | bool (b : Bool)
  | int64 (i : Int)
  deriving DecidableEq, Repr

/-- Go `otellog.KeyValue`. -/
structure OtelKV where
  key : String
  value : OtelLogValue
  deriving DecidableEq, Repr

/-- Go `zapFieldsToOtelAttrs`: the fixed type map from zap fields to remote log
attributes.  Untyped (default-branch) fields contribute their string slot
only when it is non-empty. -/
def zapFieldsToOtelAttrs : List ZapField → List OtelKV
  | [] => []
  | f :: fs =>
    let rest := zapFieldsToOtelAttrs fs
    match f.type with
    | .stringT => ⟨f.key, .str f.string⟩ :: rest
    | .boolT => ⟨f.key, .bool (f.integer = 1)⟩ :: rest
    | .int64T => ⟨f.key, .int64 f.integer⟩ :: rest
    | .int32T => ⟨f.key, .int64 f.integer⟩ :: rest
    | .int16T => ⟨f.key, .int64 f.integer⟩ :: rest
    | .int8T => ⟨f.key, .int64 f.integer⟩ :: rest
    | .uint64T => ⟨f.key, .int64 f.integer⟩ :: rest
    | .uint32T => ⟨f.key, .int64 f.integer⟩ :: rest
    | .uint16T => ⟨f.key, .int64 f.integer⟩ :: rest
    | .uint8T => ⟨f.key, .int64 f.integer⟩ :: rest
    | .timeT => ⟨f.key, .int64 f.integer⟩ :: rest
    | _ => if f.string ≠ "" then ⟨f.key, .str f.string⟩ :: rest else rest

/-- A remote log record as emitted to the OTLP log pipeline. -/
structure OtelRecord where
  severity : OtelSeverity
  severityText : String
  body : String
  attrs : List OtelKV
  deriving DecidableEq, Repr

/-- A record handed to the local zap sink. -/
structure ZapEmission where
  level : LogLevel
  msg : String
  fields : List ZapField
  deriving DecidableEq, Repr

/-- What one `Send()` call produced: the builder as left behind (Send mutates
its field list), the remote record (if the remote pipeline is configured) and
the local record (if the zap sink is configured and the level matches a case
of the emission switch). -/
structure SendResult where
  builder : LogBuilder
  otelRec : Option OtelRecord
  zapEmit : Option ZapEmission
  deriving DecidableEq, Repr

/-- Go `(*LogBuilder).Send()`.  `caller` is the result of `logCaller()`'s stack
walk (an external input; `""` means no usable frame was found). -/
def LogBuilder.send (b : LogBuilder) (gs : GlobalState) (caller : String) : SendResult :=
  let msg := if b.msg = "" then "no-message" else b.msg
  let sc := b.ctx.spanContext
  let otelRec :=
    if gs.otelLogger then
      some { severity := b.otelSeverity
             severityText := b.severityText
             body := msg
             attrs := zapFieldsToOtelAttrs b.fields
               ++ (if sc.isValid then
                     [⟨"trace_id", .str (String.mk (toHexFixed 32 sc.traceID))⟩,
                      ⟨"span_id", .str (String.mk (toHexFixed 16 sc.spanID))⟩]
                   else [])
               ++ (if caller ≠ "" then [⟨"caller", .str caller⟩] else []) }
    else none
  if !gs.zapLogger then
    { builder := b, otelRec := otelRec, zapEmit := none }
  else
    let fields1 := b.fields
      ++ (if sc.isValid then
            [zapString "trace_id" (String.mk (toHexFixed 32 sc.traceID)),
             zapString "span_id" (String.mk (toHexFixed 16 sc.spanID))]
          else [])
    let fields2 := fields1 ++ (if caller ≠ "" then [zapString "caller" caller] else [])
    let b1 := { b with fields := fields2 }
    let emit :=
      if b.level = levelDebug ∨ b.level = levelInfo ∨ b.level = levelWarn ∨ b.level = levelError then
        some { level := b.level, msg := msg, fields := fields2 }
      else none
    { builder := b1, otelRec := otelRec, zapEmit := emit }

/-! ## PropagationBridge (`propagation.go`)

The propagator installed by `Init` is the composite of the W3C trace-context
propagator and the baggage propagator. -/

/-- Render the identity header value: `00-<trace id>-<span id>-<flags>`. -/
def traceparentHeaderValue (sc : SpanContext) : String :=
  String.mk ('0' :: '0' :: '-' ::
    (toHexFixed 32 sc.traceID ++ '-' ::
      (toHexFixed 16 sc.spanID ++ '-' :: toHexFixed 2 (sc.traceFlags &&& 1))))

/-- Go `TraceContext.Inject`: skip invalid contexts, else write the identity
header. -/
def injectTraceContext (ctx : Context) (c : Carrier) : Carrier :=
  let sc := ctx.spanContext
  if sc.isValid then c.set "traceparent" (traceparentHeaderValue sc) else c

/-- Parse a traceparent header value, as `TraceContext.Extract` validates it:
fixed-width hex fields, version below 255, no trailing data for version 0,
and a valid resulting span context. -/
def parseTraceparent (s : String) : Option SpanContext :=
  match splitOnDash s.data with
  | ver :: tid :: sid :: fl :: rest =>
    match parseHexFixed 2 ver, parseHexFixed 32 tid, parseHexFixed 16 sid,
        parseHexFixed 2 fl with
    | some v, some t, some sp, some f =>
      if v = 255 then none
      else if v = 0 ∧ rest ≠ [] then none
      else
        let sc : SpanContext := ⟨t, sp, f &&& 1, true⟩
        if sc.isValid then some sc else none
    | _, _, _, _ => none
  | _ => none

/-- Go `TraceContext.Extract`: an invalid or absent header leaves the context
unchanged; a valid one layers the remote span context onto it. -/
def extractTraceContext (ctx : Context) (c : Carrier) : Context :=
  match c.get "traceparent" with
  | none => ctx
  | some s =>
    match parseTraceparent s with
    | none => ctx
    | some sc => { ctx with activeSpan := some sc }

/-- The encoded `baggage` header value for a member list. -/
def baggageHeaderValue (bag : List (String × String)) : String :=
  String.intercalate "," (bag.map fun kv => kv.1 ++ "=" ++ kv.2)

/-- Go `Baggage.Inject`: written only when the context's baggage is non-empty. -/
def injectBaggage (ctx : Context) (c : Carrier) : Carrier :=
  let s := baggageHeaderValue ctx.baggage
  if s ≠ "" then c.set "baggage" s else c

/-- Split one baggage member `k=v`. -/
def parseBaggageMember (cs : List Char) : Option (String × String) :=
  match cs.splitOn '=' with
  | [k, v] => some (String.mk k, String.mk v)
  | _ => none

/-- Go `Baggage.Extract`: parse the `baggage` header into the context's baggage;
an absent or unparsable header leaves the context unchanged. -/
def extractBaggage (ctx : Context) (c : Carrier) : Context :=
  match c.get "baggage" with
  | none => ctx
  | some s =>
    let members := (s.data.splitOn ',').map parseBaggageMember
    if members.all Option.isSome then
      { ctx with baggage := members.filterMap id }
    else ctx

/-- The composite propagator's `Inject`: trace context, then baggage. -/
def compositeInject (ctx : Context) (c : Carrier) : Carrier :=
  injectBaggage ctx (injectTraceContext ctx c)

/-- The composite propagator's `Extract`: trace context, then baggage. -/
def compositeExtract (ctx : Context) (c : Carrier) : Context :=
  extractBaggage (extractTraceContext ctx c) c

/-- Go `PropagationBuilder`. -/
structure PropagationBuilder where
  ctx : Context := Context.background
  useLegacy : Bool := false
  deriving DecidableEq, Repr

/-- Go `Propagate()`. -/
def Propagate : PropagationBuilder := {}

/-- Go `(*PropagationBuilder).FromContext`. -/
def PropagationBuilder.fromContext (p : PropagationBuilder) (ctx : Context) :
    PropagationBuilder :=
  { p with ctx := ctx }

/-- Go `(*PropagationBuilder).WithLegacyHeaders`. -/
def PropagationBuilder.withLegacyHeaders (p : PropagationBuilder) (enable : Bool) :
    PropagationBuilder :=
  { p with useLegacy := enable }

/-- Go `(*PropagationBuilder).FromHTTPRequest`: the receiver's context is
ignored; extraction starts from the request's own context.  Without an
installed propagator, the request context is returned unchanged. -/
def PropagationBuilder.fromHTTPRequest (_p : PropagationBuilder) (gs : GlobalState)
    (reqCtx : Context) (headers : Carrier) : Context :=
  if !gs.propagator then reqCtx else compositeExtract reqCtx headers

/-- Go `(*PropagationBuilder).ToHTTPRequest`: inject into the request headers;
when legacy mode is on and the span context is valid, additionally write the
two plain-hex headers. -/
def PropagationBuilder.toHTTPRequest (p : PropagationBuilder) (gs : GlobalState)
    (headers : Carrier) : Carrier :=
  if !gs.propagator then headers
  else
    let h := compositeInject p.ctx headers
    if !p.useLegacy then h
    else
      let sc := p.ctx.spanContext
      if !sc.isValid then h
      else
        (h.set "x-trace-id" (String.mk (toHexFixed 32 sc.traceID))).set
          "x-span-id" (String.mk (toHexFixed 16 sc.spanID))

/-- Go `(*PropagationBuilder).ToHTTPResponse`: writes the two plain-hex headers
whenever the span context is valid; neither the propagator handle nor the
legacy flag is consulted. -/
def PropagationBuilder.toHTTPResponse (p : PropagationBuilder) (w : Carrier) : Carrier :=
  let sc := p.ctx.spanContext
  if !sc.isValid then w
  else
    (w.set "x-trace-id" (String.mk (toHexFixed 32 sc.traceID))).set
      "x-span-id" (String.mk (toHexFixed 16 sc.spanID))

/-- Go `(*PropagationBuilder).FromAMQP`: extraction layered onto the builder's
context. -/
def PropagationBuilder.fromAMQP (p : PropagationBuilder) (gs : GlobalState)
    (headers : Carrier) : Context :=
  if !gs.propagator then p.ctx else compositeExtract p.ctx headers

/-- Go `(*PropagationBuilder).ToAMQP`: like the HTTP outbound direction, over the
message-header table. -/
def PropagationBuilder.toAMQP (p : PropagationBuilder) (gs : GlobalState)
    (headers : Carrier) : Carrier :=
  if !gs.propagator then headers
  else
    let h := compositeInject p.ctx headers
    if !p.useLegacy then h
    else
      let sc := p.ctx.spanContext
      if !sc.isValid then h
      else
        (h.set "x-trace-id" (String.mk (toHexFixed 32 sc.traceID))).set
          "x-span-id" (String.mk (toHexFixed 16 sc.spanID))

/-! ## LifecycleController (`otel_init.go`) -/

/-- Outcomes of the external construction steps `Init` performs: the resource
descriptor, the three OTLP exporters and the zap production logger.  Each can
fail; the outcome is an input to the model. -/
structure InitEnv where
  resourceOK : Bool
  traceExpOK : Bool
  metricExpOK : Bool
  logExpOK : Bool
  zapOK : Bool
  deriving DecidableEq, Repr

/-- Go `Init(ctx, cfg)`, step for step: store the config, build the resource,
build the trace pipeline and install the tracer provider, build the metric
pipeline (when enabled) and install meter provider and meter, build the log
pipeline and install logger provider and logger, install the propagator, and
finally construct the zap logger.  Any failing step returns the error at once,
leaving whatever the earlier steps already installed.  The `Bool` of the
result is `true` when a shutdown callback was returned. -/
def Init (gs0 : GlobalState) (env : InitEnv) (cfg : Config) :
    GlobalState × Option String :=
  let gs := { gs0 with cfg := cfg }
  if !env.resourceOK then (gs, some "resource construction failed")
  else if !env.traceExpOK then (gs, some "trace exporter construction failed")
  else
    let gs := { gs with tracerProvider := true }
    if cfg.EnableMetrics ∧ !env.metricExpOK then
      (gs, some "metric exporter construction failed")
    else
      let gs := if cfg.EnableMetrics then { gs with meterProvider := true, meter := true } else gs
      if !env.logExpOK then (gs, some "log exporter construction failed")
      else
        let gs := { gs with logProvider := true, otelLogger := true, propagator := true }
        if !env.zapOK then (gs, some "zap logger construction failed")
        else ({ gs with zapLogger := true }, none)

/-! ## Claim C9 -/

/-- C9: calling `Run` with a nil function returns the error
`eto.Trace().Run: fn is nil` without starting, attributing, or ending any
span — the nil check precedes all span creation, for every builder and every
global state. -/
theorem C9_run_nil_fn (gs : GlobalState) (b : TraceBuilder) (gen : IdGen) :
    b.run gs gen none = (none, some "eto.Trace().Run: fn is nil") := rfl

/-! ## Claim C5 -/

/-- C5: with metrics globally disabled or no global meter installed,
`Counter.Add` and `Histogram.Record` return with the global state — in
particular both instrument caches and both measurement logs — unchanged, for
every builder, context and value. -/
theorem C5_metrics_disabled_noop (gs : GlobalState) (cb : CounterBuilder)
    (hb : HistogramBuilder) (ctx : Context) (v : Int) (x : Nat)
    (h : gs.cfg.EnableMetrics = false ∨ gs.meter = false) :
    cb.add gs ctx v = gs ∧ hb.record gs ctx x = gs := by
  rcases h with h | h <;>
    exact ⟨by simp [CounterBuilder.add, h], by simp [HistogramBuilder.record, h]⟩

/-- Witness for C5 at a concrete disabled state. -/
theorem C5_metrics_disabled_noop_witness :
    (MetricCounter "amqp_consume_total").add GlobalState.empty Context.background 1 =
      GlobalState.empty ∧
    (MetricHistogram "amqp_consume_duration_ms").record GlobalState.empty
      Context.background 0 = GlobalState.empty :=
  C5_metrics_disabled_noop GlobalState.empty (MetricCounter "amqp_consume_total")
    (MetricHistogram "amqp_consume_duration_ms") Context.background 1 0 (Or.inl rfl)

/-! ## Claim C1 -/

/-- C1 counterexample: with metrics enabled and the metric exporter failing,
`Init` returns a non-nil error, yet the tracer provider has already been
installed as a process-wide handle — partial initialization is observable,
contrary to the claim. -/
theorem C1_partial_install_counterexample :
    ((Init GlobalState.empty ⟨true, true, false, true, true⟩
        { ServiceName := "svc", Environment := "dev",
          OtelEndpoint := "collector:4317", EnableMetrics := true }).2).isSome = true ∧
    (Init GlobalState.empty ⟨true, true, false, true, true⟩
        { ServiceName := "svc", Environment := "dev",
          OtelEndpoint := "collector:4317", EnableMetrics := true }).1.tracerProvider = true :=
  ⟨rfl, rfl⟩

/-- C1 (amended): any pipeline construction failure makes `Init` return a
non-nil error, and no later handle is installed (in particular the zap logger
never is), but handles installed by steps before the failing one remain
installed: the tracer provider is present exactly when resource and trace
exporter construction succeeded, and the propagator exactly when every step
up to and including the log pipeline succeeded. -/
theorem C1_init_failure_amended (env : InitEnv) (cfg : Config)
    (h : env.resourceOK = false ∨ env.traceExpOK = false ∨
         (cfg.EnableMetrics = true ∧ env.metricExpOK = false) ∨
         env.logExpOK = false ∨ env.zapOK = false) :
    (Init GlobalState.empty env cfg).2 ≠ none ∧
    (Init GlobalState.empty env cfg).1.zapLogger = false ∧
    (Init GlobalState.empty env cfg).1.tracerProvider =
      (env.resourceOK && env.traceExpOK) ∧
    (Init GlobalState.empty env cfg).1.propagator =
      (env.resourceOK && env.traceExpOK &&
        (!cfg.EnableMetrics || env.metricExpOK) && env.logExpOK) := by
  obtain ⟨r, t, m, l, z⟩ := env
  cases hEM : cfg.EnableMetrics <;> cases r <;> cases t <;> cases m <;> cases l <;>
    cases z <;> simp_all [Init, GlobalState.empty]

/-- Witness for C1 (amended) at the concrete failing metric-exporter step. -/
theorem C1_init_failure_amended_witness :
    (Init GlobalState.empty ⟨true, true, false, true, true⟩
        { EnableMetrics := true }).2 ≠ none ∧
    (Init GlobalState.empty ⟨true, true, false, true, true⟩
        { EnableMetrics := true }).1.zapLogger = false ∧
    (Init GlobalState.empty ⟨true, true, false, true, true⟩
        { EnableMetrics := true }).1.tracerProvider = (true && true) ∧
    (Init GlobalState.empty ⟨true, true, false, true, true⟩
        { EnableMetrics := true }).1.propagator =
      (true && true && (!true || false) && true) :=
  C1_init_failure_amended ⟨true, true, false, true, true⟩ { EnableMetrics := true }
    (Or.inr (Or.inr (Or.inl ⟨rfl, rfl⟩)))

/-! ## Cache-stability lemmas for the instrument registry -/

theorem lookupInst_append_left (c l : List (String × Instrument)) (name : String)
    (i : Instrument) (h : lookupInst c name = some i) :
    lookupInst (c ++ l) name = some i := by
  unfold lookupInst at h ⊢
  induction c with
  | nil => simp at h
  | cons p c ih =>
    simp only [List.cons_append, List.find?_cons] at h ⊢
    cases hd : decide (p.1 = name) with
    | true => rw [hd] at h; exact h
    | false => rw [hd] at h; exact ih h

theorem getOrCreateCounter_fst_counterCache (gs : GlobalState) (n u d name : String)
    (i : Instrument) (h : lookupInst gs.counterCache name = some i) :
    lookupInst ((getOrCreateCounter gs n u d).1).counterCache name = some i := by
  unfold getOrCreateCounter
  cases hl : lookupInst gs.counterCache n with
  | some c => exact h
  | none =>
    by_cases hc : gs.counterCreateOK n = true
    · simp only [hc, if_true]
      exact lookupInst_append_left _ _ _ _ h
    · simp only [Bool.not_eq_true] at hc
      simp only [hc, Bool.false_eq_true, if_false]
      exact h

theorem getOrCreateCounter_fst_histogramCache (gs : GlobalState) (n u d : String) :
    ((getOrCreateCounter gs n u d).1).histogramCache = gs.histogramCache := by
  unfold getOrCreateCounter
  cases lookupInst gs.counterCache n with
  | some c => rfl
  | none =>
    by_cases hc : gs.counterCreateOK n = true
    · simp only [hc, if_true]
    · simp only [Bool.not_eq_true] at hc
      simp only [hc, Bool.false_eq_true, if_false]

theorem getOrCreateHistogram_fst_histogramCache (gs : GlobalState) (n u d name : String)
    (i : Instrument) (h : lookupInst gs.histogramCache name = some i) :
    lookupInst ((getOrCreateHistogram gs n u d).1).histogramCache name = some i := by
  unfold getOrCreateHistogram
  cases hl : lookupInst gs.histogramCache n with
  | some c => exact h
  | none =>
    by_cases hc : gs.histogramCreateOK n = true
    · simp only [hc, if_true]
      exact lookupInst_append_left _ _ _ _ h
    · simp only [Bool.not_eq_true] at hc
      simp only [hc, Bool.false_eq_true, if_false]
      exact h

theorem getOrCreateHistogram_fst_counterCache (gs : GlobalState) (n u d : String) :
    ((getOrCreateHistogram gs n u d).1).counterCache = gs.counterCache := by
  unfold getOrCreateHistogram
  cases lookupInst gs.histogramCache n with
  | some c => rfl
  | none =>
    by_cases hc : gs.histogramCreateOK n = true
    · simp only [hc, if_true]
    · simp only [Bool.not_eq_true] at hc
      simp only [hc, Bool.false_eq_true, if_false]

theorem counterAdd_counterCache (b : CounterBuilder) (gs : GlobalState) (ctx : Context)
    (v : Int) (name : String) (i : Instrument)
    (h : lookupInst gs.counterCache name = some i) :
    lookupInst (b.add gs ctx v).counterCache name = some i := by
  unfold CounterBuilder.add
  split
  · exact h
  · have h1 := getOrCreateCounter_fst_counterCache gs b.name b.unit b.desc name i h
    cases hg : getOrCreateCounter gs b.name b.unit b.desc with
    | mk gs1 oc =>
      rw [hg] at h1
      cases oc with
      | none => exact h1
      | some c => exact h1

theorem counterAdd_histogramCache (b : CounterBuilder) (gs : GlobalState) (ctx : Context)
    (v : Int) : (b.add gs ctx v).histogramCache = gs.histogramCache := by
  unfold CounterBuilder.add
  split
  · rfl
  · have h1 := getOrCreateCounter_fst_histogramCache gs b.name b.unit b.desc
    cases hg : getOrCreateCounter gs b.name b.unit b.desc with
    | mk gs1 oc =>
      rw [hg] at h1
      cases oc with
      | none => exact h1
      | some c => exact h1

theorem histRecord_histogramCache (b : HistogramBuilder) (gs : GlobalState) (ctx : Context)
    (v : Nat) (name : String) (i : Instrument)
    (h : lookupInst gs.histogramCache name = some i) :
    lookupInst (b.record gs ctx v).histogramCache name = some i := by
  unfold HistogramBuilder.record
  split
  · exact h
  · have h1 := getOrCreateHistogram_fst_histogramCache gs b.name b.unit b.desc name i h
    cases hg : getOrCreateHistogram gs b.name b.unit b.desc with
    | mk gs1 oh =>
      rw [hg] at h1
      cases oh with
      | none => exact h1
      | some c => exact h1

theorem histRecord_counterCache (b : HistogramBuilder) (gs : GlobalState) (ctx : Context)
    (v : Nat) : (b.record gs ctx v).counterCache = gs.counterCache := by
  unfold HistogramBuilder.record
  split
  · rfl
  · have h1 := getOrCreateHistogram_fst_counterCache gs b.name b.unit b.desc
    cases hg : getOrCreateHistogram gs b.name b.unit b.desc with
    | mk gs1 oh =>
      rw [hg] at h1
      cases oh with
      | none => exact h1
      | some c => exact h1

theorem applyMetricOps_counterCache (ops : List MetricOp) :
    ∀ gs name i, lookupInst gs.counterCache name = some i →
      lookupInst (applyMetricOps gs ops).counterCache name = some i := by
  induction ops with
  | nil => intro gs name i h; exact h
  | cons op ops ih =>
    intro gs name i h
    refine ih _ name i ?_
    cases op with
    | add b ctx v => exact counterAdd_counterCache b gs ctx v name i h
    | record b ctx v => rw [show (MetricOp.record b ctx v).apply gs = b.record gs ctx v from rfl,
        histRecord_counterCache]; exact h

theorem applyMetricOps_histogramCache (ops : List MetricOp) :
    ∀ gs name i, lookupInst gs.histogramCache name = some i →
      lookupInst (applyMetricOps gs ops).histogramCache name = some i := by
  induction ops with
  | nil => intro gs name i h; exact h
  | cons op ops ih =>
    intro gs name i h
    refine ih _ name i ?_
    cases op with
    | add b ctx v => rw [show (MetricOp.add b ctx v).apply gs = b.add gs ctx v from rfl,
        counterAdd_histogramCache]; exact h
    | record b ctx v => exact histRecord_histogramCache b gs ctx v name i h

/-! ## Traceparent round-trip lemma -/

theorem parseTraceparent_roundtrip (sc : SpanContext) (hv : sc.isValid = true)
    (ht : sc.traceID < 2 ^ 128) (hs : sc.spanID < 2 ^ 64) :
    parseTraceparent (traceparentHeaderValue sc) =
      some ⟨sc.traceID, sc.spanID, sc.traceFlags &&& 1 &&& 1, true⟩ := by
  have h1632 : (16 : Nat) ^ 32 = 2 ^ 128 := by norm_num
  have h1616 : (16 : Nat) ^ 16 = 2 ^ 64 := by norm_num
  have hfl : sc.traceFlags &&& 1 < 16 ^ 2 := by
    have := Nat.and_le_right (n := sc.traceFlags) (m := 1)
    omega
  have e1 : splitOnDash (traceparentHeaderValue sc).data =
      ['0', '0'] :: toHexFixed 32 sc.traceID :: toHexFixed 16 sc.spanID ::
        [toHexFixed 2 (sc.traceFlags &&& 1)] := by
    show splitOnDash (['0', '0'] ++ '-' ::
      (toHexFixed 32 sc.traceID ++ '-' ::
        (toHexFixed 16 sc.spanID ++ '-' :: toHexFixed 2 (sc.traceFlags &&& 1)))) = _
    rw [splitOnDash_append_dash ['0', '0'] (by decide),
      splitOnDash_append_dash _ (dash_not_mem_toHexFixed 32 sc.traceID),
      splitOnDash_append_dash _ (dash_not_mem_toHexFixed 16 sc.spanID),
      splitOnDash_no_dash _ (dash_not_mem_toHexFixed 2 _)]
  have hvt : sc.traceID ≠ 0 ∧ sc.spanID ≠ 0 := by
    unfold SpanContext.isValid at hv
    simp only [Bool.and_eq_true, decide_eq_true_eq] at hv
    exact hv
  have p0 : parseHexFixed 2 ['0', '0'] = some 0 := by decide
  have p1 := parseHexFixed_toHexFixed 32 sc.traceID (h1632 ▸ ht)
  have p2 := parseHexFixed_toHexFixed 16 sc.spanID (h1616 ▸ hs)
  have p3 := parseHexFixed_toHexFixed 2 (sc.traceFlags &&& 1) hfl
  unfold parseTraceparent
  rw [e1]
  simp only [p0, p1, p2, p3]
  simp [SpanContext.isValid, hvt.1, hvt.2]

theorem getOrCreateCounter_hit (gs : GlobalState) (name u d : String) (i : Instrument)
    (h : lookupInst gs.counterCache name = some i) :
    getOrCreateCounter gs name u d = (gs, some i) := by
  unfold getOrCreateCounter
  rw [h]

theorem getOrCreateHistogram_hit (gs : GlobalState) (name u d : String) (i : Instrument)
    (h : lookupInst gs.histogramCache name = some i) :
    getOrCreateHistogram gs name u d = (gs, some i) := by
  unfold getOrCreateHistogram
  rw [h]

/-! ## Claim C6 -/

/-- C6: instrument identity is stable for the process lifetime.  A cache miss
with a successful creation stores the instrument built from the supplied name,
unit and description; once a name is cached, every later lookup — with any
unit and description, and after any sequence of metric operations — returns
exactly the stored instrument and leaves the state untouched. -/
theorem C6_instrument_cache_stable (gs : GlobalState) (name u1 d1 u2 d2 : String)
    (i : Instrument) (ops : List MetricOp) :
    (lookupInst gs.counterCache name = none → gs.counterCreateOK name = true →
      getOrCreateCounter gs name u1 d1 =
        ({ gs with counterCache := gs.counterCache ++ [(name, ⟨name, u1, d1⟩)] },
          some ⟨name, u1, d1⟩)) ∧
    (lookupInst gs.counterCache name = some i →
      getOrCreateCounter gs name u2 d2 = (gs, some i) ∧
      lookupInst (applyMetricOps gs ops).counterCache name = some i ∧
      getOrCreateCounter (applyMetricOps gs ops) name u2 d2 =
        (applyMetricOps gs ops, some i)) ∧
    (lookupInst gs.histogramCache name = none → gs.histogramCreateOK name = true →
      getOrCreateHistogram gs name u1 d1 =
        ({ gs with histogramCache := gs.histogramCache ++ [(name, ⟨name, u1, d1⟩)] },
          some ⟨name, u1, d1⟩)) ∧
    (lookupInst gs.histogramCache name = some i →
      getOrCreateHistogram gs name u2 d2 = (gs, some i) ∧
      lookupInst (applyMetricOps gs ops).histogramCache name = some i ∧
      getOrCreateHistogram (applyMetricOps gs ops) name u2 d2 =
        (applyMetricOps gs ops, some i)) := by
  refine ⟨fun hn hok => ?_, fun hsome => ?_, fun hn hok => ?_, fun hsome => ?_⟩
  · unfold getOrCreateCounter
    rw [hn, hok]
    simp
  · have hpersist := applyMetricOps_counterCache ops gs name i hsome
    exact ⟨getOrCreateCounter_hit gs name u2 d2 i hsome, hpersist,
      getOrCreateCounter_hit _ name u2 d2 i hpersist⟩
  · unfold getOrCreateHistogram
    rw [hn, hok]
    simp
  · have hpersist := applyMetricOps_histogramCache ops gs name i hsome
    exact ⟨getOrCreateHistogram_hit gs name u2 d2 i hsome, hpersist,
      getOrCreateHistogram_hit _ name u2 d2 i hpersist⟩

/-- A state with one cached counter and one cached histogram, both stored
under the name `c` with their first-creation unit and description. -/
def gsC6 : GlobalState :=
  { counterCache := [("c", ⟨"c", "1", "first"⟩)]
    histogramCache := [("c", ⟨"c", "ms", "first"⟩)] }

/-- Witness for C6: later lookups with a different unit and description
return the stored instruments and change nothing. -/
theorem C6_instrument_cache_stable_witness :
    getOrCreateCounter gsC6 "c" "s" "later" = (gsC6, some ⟨"c", "1", "first"⟩) ∧
    getOrCreateHistogram gsC6 "c" "s" "later" = (gsC6, some ⟨"c", "ms", "first"⟩) :=
  ⟨((C6_instrument_cache_stable gsC6 "c" "u" "d" "s" "later" ⟨"c", "1", "first"⟩
      []).2.1 rfl).1,
   ((C6_instrument_cache_stable gsC6 "c" "u" "d" "s" "later" ⟨"c", "ms", "first"⟩
      []).2.2.2 rfl).1⟩

/-! ## Carrier and propagation helper lemmas -/

theorem Carrier.get_set_self (c : Carrier) (k v : String) :
    (c.set k v).get k = some v := by
  simp [Carrier.get, Carrier.set]

theorem Carrier.get_set_ne (c : Carrier) (k q v : String) (h : q ≠ k) :
    (c.set k v).get q = c.get q := by
  simp [Carrier.get, Carrier.set, h]

theorem extractBaggage_activeSpan (ctx : Context) (c : Carrier) :
    (extractBaggage ctx c).activeSpan = ctx.activeSpan := by
  unfold extractBaggage
  cases c.get "baggage" with
  | none => rfl
  | some s => dsimp only; split <;> rfl

theorem compositeInject_get_traceparent (ctx : Context) (c : Carrier)
    (hv : (ctx.spanContext).isValid = true) :
    (compositeInject ctx c).get "traceparent" =
      some (traceparentHeaderValue ctx.spanContext) := by
  unfold compositeInject injectBaggage injectTraceContext
  simp only [hv, if_true]
  split
  · rw [Carrier.get_set_ne _ _ _ _ (by decide)]
    exact Carrier.get_set_self _ _ _
  · exact Carrier.get_set_self _ _ _

theorem toHTTPRequest_get_traceparent (p : PropagationBuilder) (gs : GlobalState)
    (c : Carrier) (hp : gs.propagator = true)
    (hv : (p.ctx.spanContext).isValid = true) :
    (p.toHTTPRequest gs c).get "traceparent" =
      some (traceparentHeaderValue p.ctx.spanContext) := by
  unfold PropagationBuilder.toHTTPRequest
  simp only [hp, Bool.not_true, Bool.false_eq_true, if_false]
  split
  · exact compositeInject_get_traceparent _ _ hv
  · simp only [hv, Bool.not_true, Bool.false_eq_true, if_false]
    rw [Carrier.get_set_ne _ _ _ _ (by decide), Carrier.get_set_ne _ _ _ _ (by decide)]
    exact compositeInject_get_traceparent _ _ hv

theorem toAMQP_get_traceparent (p : PropagationBuilder) (gs : GlobalState)
    (c : Carrier) (hp : gs.propagator = true)
    (hv : (p.ctx.spanContext).isValid = true) :
    (p.toAMQP gs c).get "traceparent" =
      some (traceparentHeaderValue p.ctx.spanContext) := by
  unfold PropagationBuilder.toAMQP
  simp only [hp, Bool.not_true, Bool.false_eq_true, if_false]
  split
  · exact compositeInject_get_traceparent _ _ hv
  · simp only [hv, Bool.not_true, Bool.false_eq_true, if_false]
    rw [Carrier.get_set_ne _ _ _ _ (by decide), Carrier.get_set_ne _ _ _ _ (by decide)]
    exact compositeInject_get_traceparent _ _ hv

theorem compositeExtract_of_traceparent (ctx0 : Context) (c : Carrier)
    (sc : SpanContext) (hget : c.get "traceparent" = some (traceparentHeaderValue sc))
    (hv : sc.isValid = true) (ht : sc.traceID < 2 ^ 128) (hs : sc.spanID < 2 ^ 64) :
    (compositeExtract ctx0 c).spanContext =
      ⟨sc.traceID, sc.spanID, sc.traceFlags &&& 1 &&& 1, true⟩ := by
  unfold compositeExtract Context.spanContext
  rw [extractBaggage_activeSpan]
  unfold extractTraceContext
  rw [hget]
  simp only [parseTraceparent_roundtrip sc hv ht hs]
  rfl

/-! ## Claim C3 -/

/-- C3: for every context whose active span context is valid, injecting via
the installed propagator into an HTTP request carrier or an AMQP header table
and then extracting from that same carrier into a fresh context yields a
context whose active trace id (and span id) equals the original one — the
wire encoding round-trip preserves trace identity, with or without legacy
headers. -/
theorem C3_roundtrip_trace_id (gs : GlobalState) (ctx fresh : Context)
    (reqHeaders amqpHeaders : Carrier) (ul1 ul2 : Bool)
    (hp : gs.propagator = true) (hv : (ctx.spanContext).isValid = true)
    (ht : ctx.spanContext.traceID < 2 ^ 128) (hs : ctx.spanContext.spanID < 2 ^ 64) :
    ((Propagate.fromHTTPRequest gs fresh
        (((Propagate.fromContext ctx).withLegacyHeaders ul1).toHTTPRequest gs
          reqHeaders)).spanContext).traceID = ctx.spanContext.traceID ∧
    (((Propagate.fromContext fresh).fromAMQP gs
        (((Propagate.fromContext ctx).withLegacyHeaders ul2).toAMQP gs
          amqpHeaders)).spanContext).traceID = ctx.spanContext.traceID := by
  have hctx : (((Propagate.fromContext ctx).withLegacyHeaders ul1)).ctx = ctx := rfl
  constructor
  · have hinj := toHTTPRequest_get_traceparent
      ((Propagate.fromContext ctx).withLegacyHeaders ul1) gs reqHeaders hp hv
    unfold PropagationBuilder.fromHTTPRequest
    simp only [hp, Bool.not_true, Bool.false_eq_true, if_false]
    rw [compositeExtract_of_traceparent fresh _ ctx.spanContext hinj hv ht hs]
  · have hinj := toAMQP_get_traceparent
      ((Propagate.fromContext ctx).withLegacyHeaders ul2) gs amqpHeaders hp hv
    unfold PropagationBuilder.fromAMQP
    simp only [hp, Bool.not_true, Bool.false_eq_true, if_false]
    rw [compositeExtract_of_traceparent
      (Propagate.fromContext fresh).ctx _ ctx.spanContext hinj hv ht hs]

/-- Witness for C3 at the hex trace id from the spec scenario. -/
theorem C3_roundtrip_trace_id_witness :
    ((Propagate.fromHTTPRequest { propagator := true }
        { activeSpan := some ⟨0x4bf92f3577b34da6a3ce929d0e0e4736, 0xf067aa0ba902b7, 1, false⟩ }
        ((((Propagate.fromContext
            { activeSpan := some ⟨0x4bf92f3577b34da6a3ce929d0e0e4736, 0xf067aa0ba902b7, 1, false⟩ }).withLegacyHeaders
            true).toHTTPRequest { propagator := true } Carrier.empty))).spanContext).traceID =
      (Context.spanContext
        { activeSpan := some ⟨0x4bf92f3577b34da6a3ce929d0e0e4736, 0xf067aa0ba902b7, 1, false⟩ }).traceID ∧
    ((((Propagate.fromContext
        { activeSpan := some ⟨0x4bf92f3577b34da6a3ce929d0e0e4736, 0xf067aa0ba902b7, 1, false⟩ }).fromAMQP
        { propagator := true }
        (((Propagate.fromContext
            { activeSpan := some ⟨0x4bf92f3577b34da6a3ce929d0e0e4736, 0xf067aa0ba902b7, 1, false⟩ }).withLegacyHeaders
            false).toAMQP { propagator := true } Carrier.empty)).spanContext).traceID) =
      (Context.spanContext
        { activeSpan := some ⟨0x4bf92f3577b34da6a3ce929d0e0e4736, 0xf067aa0ba902b7, 1, false⟩ }).traceID :=
  C3_roundtrip_trace_id { propagator := true }
    { activeSpan := some ⟨0x4bf92f3577b34da6a3ce929d0e0e4736, 0xf067aa0ba902b7, 1, false⟩ }
    { activeSpan := some ⟨0x4bf92f3577b34da6a3ce929d0e0e4736, 0xf067aa0ba902b7, 1, false⟩ }
    Carrier.empty Carrier.empty true false rfl (by decide) (by decide) (by decide)

/-! ## Claim C2 -/

/-- The inbound request headers of the spec scenario. -/
def c2InHeaders : Carrier :=
  Carrier.empty.set "traceparent"
    "00-4bf92f3577b34da6a3ce929d0e0e4736-00f067aa0ba902b7-01"

/-- Globals after a successful `Init` (only the handles the scenario touches). -/
def c2Gs : GlobalState := { tracerProvider := true, propagator := true }

/-- Extract → the context carrying the inbound identity. -/
def c2Ctx : Context := Propagate.fromHTTPRequest c2Gs Context.background c2InHeaders

/-- Start the server span from the extracted context. -/
def c2Ctx2 : Context :=
  ((((Trace.withName "/hello").fromContext c2Ctx).withKind .server).start c2Gs
    ⟨0, 0xb7ad6b7169203331⟩).1

/-- C2 counterexample: with legacy mode disabled, writing propagation to the
HTTP response still produces the `x-trace-id` response header carrying the
inbound trace id — the response helper never consults the legacy flag, so the
claim's "no such response header is written" fails. -/
theorem C2_legacy_off_header_counterexample :
    (((Propagate.fromContext c2Ctx2).withLegacyHeaders false).toHTTPResponse
        Carrier.empty).get "x-trace-id" =
      some "4bf92f3577b34da6a3ce929d0e0e4736" := by decide

/-- C2 (amended): after extracting the scenario's identity header and starting
a server span from the resulting context, writing propagation to the HTTP
response produces a response header whose trace id is the inbound
`4bf92f3577b34da6a3ce929d0e0e4736` — with legacy mode enabled and equally with
legacy mode disabled. -/
theorem C2_response_header_amended :
    (((Propagate.fromContext c2Ctx2).withLegacyHeaders true).toHTTPResponse
        Carrier.empty).get "x-trace-id" =
      some "4bf92f3577b34da6a3ce929d0e0e4736" ∧
    (((Propagate.fromContext c2Ctx2).withLegacyHeaders false).toHTTPResponse
        Carrier.empty).get "x-trace-id" =
      some "4bf92f3577b34da6a3ce929d0e0e4736" := by
  constructor <;> decide

/-! ## Claim C4 -/

/-- C4 counterexample: a 64-bit float field (here `1.5`, bit pattern
`0x3FF8000000000000`) reaches the remote pipeline with no attribute at all —
it is silently dropped rather than translated to a best-effort string. -/
theorem C4_float_field_dropped_counterexample :
    ((Log.field "latency" (GoVal.float64 0x3FF8000000000000)).send
        { otelLogger := true } "").otelRec =
      some { severity := .info, severityText := "INFO", body := "no-message",
             attrs := [] } := by decide

/-- C4 (amended): the fixed type map sends string fields to string attributes,
bool fields to bool attributes, integer fields of any width and time fields to
64-bit integer attributes; every other field type (64-bit floats included)
contributes a string attribute only when its preformatted string slot is
non-empty and is otherwise silently dropped.  Severity maps to the fixed
four-level enumeration, and `Send` emits the remote record built from exactly
this translation. -/
theorem C4_field_translation_amended (k s : String) (i : Int) (fs : List ZapField)
    (b : LogBuilder) (gs : GlobalState) (caller : String)
    (hsne : s ≠ "") (hotel : gs.otelLogger = true) :
    zapFieldsToOtelAttrs (⟨k, .stringT, i, s⟩ :: fs) =
      ⟨k, .str s⟩ :: zapFieldsToOtelAttrs fs ∧
    zapFieldsToOtelAttrs (⟨k, .boolT, i, s⟩ :: fs) =
      ⟨k, .bool (i = 1)⟩ :: zapFieldsToOtelAttrs fs ∧
    (∀ t ∈ [ZapType.int64T, .int32T, .int16T, .int8T, .uint64T, .uint32T,
        .uint16T, .uint8T, .timeT],
      zapFieldsToOtelAttrs (⟨k, t, i, s⟩ :: fs) =
        ⟨k, .int64 i⟩ :: zapFieldsToOtelAttrs fs) ∧
    zapFieldsToOtelAttrs (⟨k, .float64T, i, ""⟩ :: fs) = zapFieldsToOtelAttrs fs ∧
    zapFieldsToOtelAttrs (⟨k, .anyT, i, ""⟩ :: fs) = zapFieldsToOtelAttrs fs ∧
    zapFieldsToOtelAttrs (⟨k, .anyT, i, s⟩ :: fs) =
      ⟨k, .str s⟩ :: zapFieldsToOtelAttrs fs ∧
    Log.debug.otelSeverity = .debug ∧ Log.info.otelSeverity = .info ∧
    Log.warn.otelSeverity = .warn ∧ Log.err.otelSeverity = .error ∧
    (b.send gs caller).otelRec = some
      { severity := b.otelSeverity
        severityText := b.severityText
        body := if b.msg = "" then "no-message" else b.msg
        attrs := zapFieldsToOtelAttrs b.fields
          ++ (if (b.ctx.spanContext).isValid then
                [⟨"trace_id", .str (String.mk (toHexFixed 32 (b.ctx.spanContext).traceID))⟩,
                 ⟨"span_id", .str (String.mk (toHexFixed 16 (b.ctx.spanContext).spanID))⟩]
              else [])
          ++ (if caller ≠ "" then [⟨"caller", .str caller⟩] else []) } := by
  refine ⟨rfl, rfl, ?_, rfl, rfl, ?_, rfl, rfl, rfl, rfl, ?_⟩
  · intro t ht
    fin_cases ht <;> rfl
  · simp [zapFieldsToOtelAttrs, hsne]
  · unfold LogBuilder.send
    by_cases hz : gs.zapLogger = true <;> simp [hotel, hz]

/-- Witness for C4 (amended): the float-field drop and the concrete remote
record of an empty builder. -/
theorem C4_field_translation_amended_witness :
    zapFieldsToOtelAttrs [⟨"k", .float64T, 7, ""⟩] = [] ∧
    (Log.send { otelLogger := true } "").otelRec = some
      { severity := .info, severityText := "INFO", body := "no-message",
        attrs := [] } := by
  have h := C4_field_translation_amended "k" "v" 7 [] Log { otelLogger := true } ""
    (by decide) rfl
  refine ⟨h.2.2.2.1, ?_⟩
  rw [h.2.2.2.2.2.2.2.2.2.2]
  decide

/-! ## Claim C7 -/

theorem trace_default_start (gs : GlobalState) (gen : IdGen)
    (htp : gs.tracerProvider = true) :
    Trace.start gs gen =
      ({ activeSpan := some ⟨gen.newTraceID, gen.newSpanID, 1, false⟩ },
       { sc := ⟨gen.newTraceID, gen.newSpanID, 1, false⟩, recording := true,
         name := "unnamed-span", kind := .internal, attrs := [], status := .unset,
         exceptions := [], endCount := 0 }) := by
  unfold TraceBuilder.start
  simp [Trace, htp, Context.background, Context.spanContext, SpanContext.zero,
    SpanContext.isValid]

/-- C7: on the default-configured builder with the tracer provider installed,
`Run(fn)` for a failing `fn` (every call yields error text `e`) leaves the
span with status Error carrying `e`, records `e` in the exception list, ends
the span exactly once, and returns `e`; for a succeeding `fn` the status is
left unset, the span is still ended exactly once, and no error is returned. -/
theorem C7_run_error_status (gs : GlobalState) (gen : IdGen) (e : String)
    (fn fn2 : Context → Option String) (htp : gs.tracerProvider = true)
    (hfe : ∀ c, fn c = some e) (hfn : ∀ c, fn2 c = none) :
    Trace.run gs gen (some fn) =
      (some { sc := ⟨gen.newTraceID, gen.newSpanID, 1, false⟩, recording := false,
              name := "unnamed-span", kind := .internal, attrs := [],
              status := .error e, exceptions := [e], endCount := 1 }, some e) ∧
    Trace.run gs gen (some fn2) =
      (some { sc := ⟨gen.newTraceID, gen.newSpanID, 1, false⟩, recording := false,
              name := "unnamed-span", kind := .internal, attrs := [],
              status := .unset, exceptions := [], endCount := 1 }, none) := by
  have hrec : Trace.recordErr = true := rfl
  have hst : Trace.setStatus = true := rfl
  constructor <;>
    simp [TraceBuilder.run, trace_default_start gs gen htp, hfe, hfn, hrec, hst,
      Span.recordError, Span.setStatus, Span.end_]

/-- Witness for C7 at a concrete failing and a concrete succeeding function. -/
theorem C7_run_error_status_witness :
    Trace.run { tracerProvider := true } ⟨3, 5⟩ (some fun _ => some "boom") =
      (some { sc := ⟨3, 5, 1, false⟩, recording := false, name := "unnamed-span",
              kind := .internal, attrs := [], status := .error "boom",
              exceptions := ["boom"], endCount := 1 }, some "boom") ∧
    Trace.run { tracerProvider := true } ⟨3, 5⟩ (some fun _ => none) =
      (some { sc := ⟨3, 5, 1, false⟩, recording := false, name := "unnamed-span",
              kind := .internal, attrs := [], status := .unset, exceptions := [],
              endCount := 1 }, none) :=
  C7_run_error_status { tracerProvider := true } ⟨3, 5⟩ "boom"
    (fun _ => some "boom") (fun _ => none) rfl (fun _ => rfl) (fun _ => rfl)

/-! ## Claim C8 -/

/-- C8: in the zero-value global state (before `Init`, the state whose
process-wide handles are all absent), every builder operation is safe: `Start`
returns a non-null inert span (not recording; `End` and `SetAttributes` are
no-ops on it), counter `Add` and histogram `Record` leave the state untouched,
log `Send` leaves the builder unchanged and emits to neither sink, and HTTP
extraction returns the input context unchanged. -/
theorem C8_uninitialized_safe (tb : TraceBuilder) (gen : IdGen)
    (cb : CounterBuilder) (hb : HistogramBuilder) (ctx reqCtx : Context)
    (v : Int) (x : Nat) (lb : LogBuilder) (caller : String)
    (p : PropagationBuilder) (headers : Carrier) :
    ((tb.start GlobalState.empty gen).2).recording = false ∧
    ((tb.start GlobalState.empty gen).2).end_ = (tb.start GlobalState.empty gen).2 ∧
    (∀ kvs, ((tb.start GlobalState.empty gen).2).setAttributes kvs =
      (tb.start GlobalState.empty gen).2) ∧
    cb.add GlobalState.empty ctx v = GlobalState.empty ∧
    hb.record GlobalState.empty ctx x = GlobalState.empty ∧
    (lb.send GlobalState.empty caller).builder = lb ∧
    (lb.send GlobalState.empty caller).otelRec = none ∧
    (lb.send GlobalState.empty caller).zapEmit = none ∧
    p.fromHTTPRequest GlobalState.empty reqCtx headers = reqCtx :=
  ⟨rfl, rfl, fun _ => rfl, rfl, rfl, rfl, rfl, rfl, rfl⟩

/-! ## Claim C10 -/

theorem send_builder_zap (gs : GlobalState) (b : LogBuilder) (caller : String)
    (hz : gs.zapLogger = true) :
    (b.send gs caller).builder = { b with fields := (b.fields
      ++ (if (b.ctx.spanContext).isValid then
            [zapString "trace_id" (String.mk (toHexFixed 32 (b.ctx.spanContext).traceID)),
             zapString "span_id" (String.mk (toHexFixed 16 (b.ctx.spanContext).spanID))]
          else []))
      ++ (if caller ≠ "" then [zapString "caller" caller] else []) } := by
  unfold LogBuilder.send
  simp [hz]

theorem send_zapEmit_of_level (gs : GlobalState) (b : LogBuilder) (caller : String)
    (hz : gs.zapLogger = true)
    (hl : b.level = levelDebug ∨ b.level = levelInfo ∨ b.level = levelWarn ∨
      b.level = levelError) :
    (b.send gs caller).zapEmit = some
      { level := b.level, msg := if b.msg = "" then "no-message" else b.msg,
        fields := (b.fields
          ++ (if (b.ctx.spanContext).isValid then
                [zapString "trace_id" (String.mk (toHexFixed 32 (b.ctx.spanContext).traceID)),
                 zapString "span_id" (String.mk (toHexFixed 16 (b.ctx.spanContext).spanID))]
              else []))
          ++ (if caller ≠ "" then [zapString "caller" caller] else []) } := by
  unfold LogBuilder.send
  simp [hz, hl]

/-- C10: `Send` mutates the builder it is called on.  With the zap sink
configured and a valid span context, the builder's own field list grows by the
trace and span correlation fields (plus the caller field when resolved); a
second `Send` on the same builder appends them again and hands the zap sink a
record that carries the `trace_id` field twice. -/
theorem C10_send_mutates_builder (gs : GlobalState) (b : LogBuilder)
    (caller : String) (hz : gs.zapLogger = true)
    (hv : (b.ctx.spanContext).isValid = true)
    (hl : b.level = levelDebug ∨ b.level = levelInfo ∨ b.level = levelWarn ∨
      b.level = levelError) :
    (b.send gs caller).builder.fields = b.fields
      ++ ([zapString "trace_id" (String.mk (toHexFixed 32 (b.ctx.spanContext).traceID)),
           zapString "span_id" (String.mk (toHexFixed 16 (b.ctx.spanContext).spanID))]
          ++ (if caller ≠ "" then [zapString "caller" caller] else [])) ∧
    ∃ z, ((b.send gs caller).builder.send gs caller).zapEmit = some z ∧
      z.fields = (b.fields
        ++ ([zapString "trace_id" (String.mk (toHexFixed 32 (b.ctx.spanContext).traceID)),
             zapString "span_id" (String.mk (toHexFixed 16 (b.ctx.spanContext).spanID))]
            ++ (if caller ≠ "" then [zapString "caller" caller] else [])))
        ++ ([zapString "trace_id" (String.mk (toHexFixed 32 (b.ctx.spanContext).traceID)),
             zapString "span_id" (String.mk (toHexFixed 16 (b.ctx.spanContext).spanID))]
            ++ (if caller ≠ "" then [zapString "caller" caller] else [])) ∧
      (z.fields.filter fun f => f.key = "trace_id").length =
        (b.fields.filter fun f => f.key = "trace_id").length + 2 := by
  have hb1 := send_builder_zap gs b caller hz
  have hb1fields : (b.send gs caller).builder.fields = b.fields
      ++ ([zapString "trace_id" (String.mk (toHexFixed 32 (b.ctx.spanContext).traceID)),
           zapString "span_id" (String.mk (toHexFixed 16 (b.ctx.spanContext).spanID))]
          ++ (if caller ≠ "" then [zapString "caller" caller] else [])) := by
    rw [hb1]
    simp [hv, List.append_assoc]
  refine ⟨hb1fields, ?_⟩
  have hctx : (b.send gs caller).builder.ctx = b.ctx := by rw [hb1]
  have hlev : (b.send gs caller).builder.level = b.level := by rw [hb1]
  have hemit := send_zapEmit_of_level gs (b.send gs caller).builder caller hz
    (by rw [hlev]; exact hl)
  rw [hctx, hb1fields] at hemit
  refine ⟨_, hemit, ?_, ?_⟩
  · dsimp only
    simp [hv, List.append_assoc]
  · dsimp only
    by_cases hc : caller = "" <;>
      simp [hv, hc, zapString, List.filter_append]

/-- Witness for C10 with one pre-existing field and an unresolved caller. -/
theorem C10_send_mutates_builder_witness :
    (((Log.fromContext { activeSpan := some ⟨9, 9, 1, true⟩ }).field "k"
        (GoVal.str "v")).send { zapLogger := true } "").builder.fields =
      ((Log.fromContext { activeSpan := some ⟨9, 9, 1, true⟩ }).field "k"
        (GoVal.str "v")).fields
      ++ ([zapString "trace_id" (String.mk (toHexFixed 32
            ((((Log.fromContext { activeSpan := some ⟨9, 9, 1, true⟩ }).field "k"
              (GoVal.str "v")).ctx.spanContext)).traceID)),
           zapString "span_id" (String.mk (toHexFixed 16
            ((((Log.fromContext { activeSpan := some ⟨9, 9, 1, true⟩ }).field "k"
              (GoVal.str "v")).ctx.spanContext)).spanID))]
          ++ (if ("" : String) ≠ "" then [zapString "caller" ""] else [])) ∧
    ∃ z, ((((Log.fromContext { activeSpan := some ⟨9, 9, 1, true⟩ }).field "k"
        (GoVal.str "v")).send { zapLogger := true } "").builder.send
          { zapLogger := true } "").zapEmit = some z ∧
      z.fields = (((Log.fromContext { activeSpan := some ⟨9, 9, 1, true⟩ }).field "k"
          (GoVal.str "v")).fields
        ++ ([zapString "trace_id" (String.mk (toHexFixed 32
              ((((Log.fromContext { activeSpan := some ⟨9, 9, 1, true⟩ }).field "k"
                (GoVal.str "v")).ctx.spanContext)).traceID)),
             zapString "span_id" (String.mk (toHexFixed 16
              ((((Log.fromContext { activeSpan := some ⟨9, 9, 1, true⟩ }).field "k"
                (GoVal.str "v")).ctx.spanContext)).spanID))]
            ++ (if ("" : String) ≠ "" then [zapString "caller" ""] else [])))
        ++ ([zapString "trace_id" (String.mk (toHexFixed 32
              ((((Log.fromContext { activeSpan := some ⟨9, 9, 1, true⟩ }).field "k"
                (GoVal.str "v")).ctx.spanContext)).traceID)),
             zapString "span_id" (String.mk (toHexFixed 16
              ((((Log.fromContext { activeSpan := some ⟨9, 9, 1, true⟩ }).field "k"
                (GoVal.str "v")).ctx.spanContext)).spanID))]
            ++ (if ("" : String) ≠ "" then [zapString "caller" ""] else [])) ∧
      (z.fields.filter fun f => f.key = "trace_id").length =
        ((((Log.fromContext { activeSpan := some ⟨9, 9, 1, true⟩ }).field "k"
          (GoVal.str "v")).fields.filter fun f => f.key = "trace_id").length) + 2 :=
  C10_send_mutates_builder { zapLogger := true }
    ((Log.fromContext { activeSpan := some ⟨9, 9, 1, true⟩ }).field "k" (GoVal.str "v"))
    "" rfl (by decide) (Or.inr (Or.inl rfl))

end Otelgo
